import Mathlib

/-!
Shallow embedding of the wstomp session multiplexer and connection
establishment (src/stomp_handler.rs, src/connect.rs, src/config.rs,
src/wstomp_event.rs), together with theorems settling the spec claims.

Payload values that the loop never inspects (decoded STOMP frames,
application frames, protocol errors, close reasons) are modelled as opaque
single-field structures over Nat; byte strings are lists of bytes.
-/

namespace Wstomp

/-- Byte payloads (Rust `Bytes` / `BytesMut`), modelled as lists of bytes. -/
abbrev Bytes := List Nat

/-- An opaque decoded STOMP frame from the server (`Message<FromServer>`). -/
structure StompFromServer where
  val : Nat
deriving DecidableEq

/-- An opaque application STOMP frame to send (`Message<ToServer>`). -/
structure StompToServer where
  val : Nat
deriving DecidableEq

/-- An opaque WebSocket protocol error (`awc::error::WsProtocolError`). -/
structure WsProtocolError where
  val : Nat
deriving DecidableEq

/-- An opaque codec error (`anyhow::Error`). -/
structure AnyhowError where
  val : Nat
deriving DecidableEq

/-- An opaque WebSocket close reason (`awc::ws::CloseReason`). -/
structure CloseReason where
  val : Nat
deriving DecidableEq

/-- Continuation items of a fragmented WebSocket message
(`actix_http::ws::Item`). -/
inductive WsItem where
  | firstText (b : Bytes)
  | firstBinary (b : Bytes)
  | cont (b : Bytes)
  | last (b : Bytes)
deriving DecidableEq

/-- Inbound WebSocket frames (`actix_http::ws::Frame`). -/
inductive WsFrame where
  | ping (b : Bytes)
  | text (b : Bytes)
  | binary (b : Bytes)
  | close (reason : Option CloseReason)
  | pong (b : Bytes)
  | continuation (i : WsItem)
deriving DecidableEq

/-- Outbound WebSocket messages (`actix_http::ws::Message`, the variants the
loop sends). -/
inductive WsMessage where
  | ping (b : Bytes)
  | pong (b : Bytes)
  | binary (b : Bytes)
deriving DecidableEq

/-- The error vocabulary of src/wstomp_event.rs (`WStompError`). -/
inductive WStompError where
  | wsReceive (e : WsProtocolError)
  | wsSend (e : WsProtocolError)
  | stompDecoding (e : AnyhowError)
  | stompEncoding (e : AnyhowError)
  | incompleteStompFrame
deriving DecidableEq

/-- The event vocabulary of src/wstomp_event.rs (`WStompEvent`), emitted on
the inbound channel. -/
inductive WStompEvent where
  | message (m : StompFromServer)
  | websocketClosed (reason : Option CloseReason)
  | error (e : WStompError)
deriving DecidableEq

/-- Outcome of `ClientCodec::decode(&mut read_buf)`:
`Ok(Some(frame))`, `Ok(None)` or `Err(e)`. -/
inductive DecodeResult where
  | decoded (f : StompFromServer)
  | incomplete
  | decodeError (e : AnyhowError)
deriving DecidableEq

/-- Outcome of `ClientCodec::encode(frame, &mut encode_buf)`: on success the
bytes appended to the encode buffer, otherwise the error. The external codec
is modelled as writing nothing on failure. -/
inductive EncodeResult where
  | ok (bytes : Bytes)
  | encodeError (e : AnyhowError)
deriving DecidableEq

/-- Outcome of `ws_sink.send(msg)`. -/
inductive SinkResult where
  | ok
  | err (e : WsProtocolError)
deriving DecidableEq

/-- Per-step external environment: the external STOMP codec, the transport
sink, and whether the inbound channel's receiver is still alive (so that
`stomp_tx.send` succeeds). -/
structure Env where
  decode : Bytes → DecodeResult
  encode : StompToServer → EncodeResult
  sinkSend : WsMessage → SinkResult
  chanOpen : Bool

/-- Mutable state of `stomp_handler_task`: the read-accumulation buffer, the
encode buffer, and whether the loop is still running (`running = false`
models having executed `break`). -/
structure SessionState where
  read_buf : Bytes
  encode_buf : Bytes
  running : Bool
deriving DecidableEq

/-- The state at loop entry: both buffers fresh, loop running. -/
def initialState : SessionState := ⟨[], [], true⟩

/-- One outcome of the `select!` in `stomp_handler_task`, i.e. which branch
fires and with what value. `wsReadError` and `wsStreamEnd` model
`ws_stream.next()` yielding `Some(Err(e))` resp. `None`: the branch pattern
`Some(Ok(ws_frame))` fails to match, tokio `select!` disables the branch for
that call, and the item is consumed with no handler running. `allClosed`
models the `else` branch (all branches disabled). -/
inductive LoopInput where
  | wsFrame (f : WsFrame)
  | wsReadError (e : WsProtocolError)
  | wsStreamEnd
  | appFrame (f : StompToServer)
  | appClosed
  | tick
  | allClosed
deriving DecidableEq

/-- Events actually enqueued on the inbound channel: `stomp_tx.send` enqueues
only while the receiver is alive. -/
def deliver (env : Env) (evs : List WStompEvent) : List WStompEvent :=
  if env.chanOpen then evs else []

/-- Result of handling one inbound WebSocket frame (the `match ws_frame`
block, lines 38-77 of src/stomp_handler.rs): either proceed with an updated
read buffer, a `finished_reading` flag and the successfully sent sink
messages, or halt (`break`) after attempting to emit the given events. -/
inductive FrameAction where
  | proceed (buf : Bytes) (finished : Bool) (sends : List WsMessage)
  | halt (events : List WStompEvent) (sends : List WsMessage)
deriving DecidableEq

/-- The `match ws_frame` block of `stomp_handler_task`:
Ping sends a Pong with the same payload (halting with `WsSend` if the sink
fails); Text/Binary append and finish; Close halts with `WebsocketClosed`;
Pong is ignored; FirstText/FirstBinary clear then append; Continue appends;
Last appends and finishes. -/
def applyWsFrame (env : Env) (read_buf : Bytes) (f : WsFrame) : FrameAction :=
  match f with
  | .ping b =>
    match env.sinkSend (.pong b) with
    | .ok => .proceed read_buf false [.pong b]
    | .err e => .halt [.error (.wsSend e)] []
  | .text b => .proceed (read_buf ++ b) true []
  | .binary b => .proceed (read_buf ++ b) true []
  | .close reason => .halt [.websocketClosed reason] []
  | .pong _ => .proceed read_buf false []
  | .continuation item =>
    match item with
    | .firstText b => .proceed b false []
    | .firstBinary b => .proceed b false []
    | .cont b => .proceed (read_buf ++ b) false []
    | .last b => .proceed (read_buf ++ b) true []

/-- Observable result of one loop iteration: the new state, the events
enqueued on the inbound channel, the messages successfully written to the
transport sink, and the buffer content handed to `ClientCodec::decode`
during this iteration (none if no decode was attempted). -/
structure StepOutput where
  state : SessionState
  events : List WStompEvent
  sends : List WsMessage
  decodedBuf : Option Bytes
deriving DecidableEq

/-- Fixed heartbeat ping payload, the bytes of `b"wstomp"`. -/
def wstompPingPayload : Bytes := [119, 115, 116, 111, 109, 112]

/-- One iteration of the `loop { select! { ... } }` of `stomp_handler_task`
(src/stomp_handler.rs lines 33-130), given which select branch fired.
A state with `running = false` has already executed `break`: nothing further
happens. -/
def stompHandlerStep (env : Env) (s : SessionState) (i : LoopInput) : StepOutput :=
  if s.running then
    match i with
    | .wsFrame f =>
      match applyWsFrame env s.read_buf f with
      | .halt evs sends => ⟨{ s with running := false }, deliver env evs, sends, none⟩
      | .proceed buf finished sends =>
        if finished then
          match env.decode buf with
          | .decoded frame =>
            if env.chanOpen then
              ⟨{ s with read_buf := [] }, [.message frame], sends, some buf⟩
            else
              ⟨{ s with read_buf := [], running := false }, [], sends, some buf⟩
          | .incomplete =>
            ⟨{ s with read_buf := buf, running := false },
              deliver env [.error .incompleteStompFrame], sends, some buf⟩
          | .decodeError e =>
            ⟨{ s with read_buf := buf, running := false },
              deliver env [.error (.stompDecoding e)], sends, some buf⟩
        else
          ⟨{ s with read_buf := buf }, [], sends, none⟩
    | .wsReadError _ => ⟨s, [], [], none⟩
    | .wsStreamEnd => ⟨s, [], [], none⟩
    | .appFrame f =>
      match env.encode f with
      | .ok bytes =>
        match env.sinkSend (.binary (s.encode_buf ++ bytes)) with
        | .ok => ⟨{ s with encode_buf := [] }, [], [.binary (s.encode_buf ++ bytes)], none⟩
        | .err e =>
          ⟨{ s with encode_buf := s.encode_buf ++ bytes, running := false },
            deliver env [.error (.wsReceive e)], [], none⟩
      | .encodeError e =>
        ⟨s, deliver env [.error (.stompEncoding e)], [], none⟩
    | .appClosed => ⟨s, [], [], none⟩
    | .tick =>
      match env.sinkSend (.ping wstompPingPayload) with
      | .ok => ⟨s, [], [.ping wstompPingPayload], none⟩
      | .err _ => ⟨s, [], [], none⟩
    | .allClosed => ⟨{ s with running := false }, [], [], none⟩
  else ⟨s, [], [], none⟩

/-- Running the loop over a sequence of select outcomes, collecting the
final state, all enqueued events and all sink writes, in order. -/
def stompHandlerRun (s : SessionState) :
    List (Env × LoopInput) → SessionState × List WStompEvent × List WsMessage
  | [] => (s, [], [])
  | (env, i) :: rest =>
    let out := stompHandlerStep env s i
    let r := stompHandlerRun out.state rest
    (r.1, out.events ++ r.2.1, out.sends ++ r.2.2)

/-- The authority component of a parsed URI (`actix_http::uri::Authority`):
`full` models `a.to_string()`, `host` models `a.host().to_string()`. -/
structure Authority where
  full : String
  host : String
deriving DecidableEq

/-- A parsed URI (`actix_http::Uri`); only the authority is ever consulted. -/
structure Uri where
  authority : Option Authority
deriving DecidableEq

/-- Connection options (src/config.rs `WStompConfigOpts`). The optional
pre-built `awc::Client` is opaque; only its presence is modelled. -/
structure WStompConfigOpts where
  ssl : Bool
  auth_token : Option String
  login : Option String
  passcode : Option String
  additional_headers : List (String × String)
  hasClient : Bool
deriving DecidableEq

/-- Connect-time errors (src/error.rs `WStompConnectError`); the payloads
are not inspected. -/
inductive WStompConnectError where
  | wsClientError
  | connectMessageFailed
deriving DecidableEq

/-- The CONNECT message assembled by the `Connector::builder()` call chain
in src/connect.rs: the fields set by the builder before `.msg()`. -/
structure ConnectMsg where
  server : String
  virtualhost : String
  headers : List (String × String)
  use_tls : Bool
  tls_server_name : String
  login : Option String
  passcode : Option String
deriving DecidableEq

/-- The `headers_for_token` helper of src/connect.rs. -/
def headers_for_token (auth_token : String) : List (String × String) :=
  [("Authorization", auth_token)]

/-- Assembly of the CONNECT message, transliterated from
src/connect.rs lines 99-125: `(authority, host_name)` come from
`uri.authority()` with `unwrap_or_default()`; the extra headers are extended
with the Authorization header when an auth token is configured; login and
passcode are attached only when both are present. -/
def buildConnectMsg (uri : Uri) (opts : WStompConfigOpts) : ConnectMsg :=
  let ah := (uri.authority.map fun a => (a.full, a.host)).getD ("", "")
  let headers := opts.additional_headers ++
    (match opts.auth_token with
     | some t => headers_for_token t
     | none => [])
  let base : ConnectMsg :=
    ⟨ah.1, ah.1, headers, true, ah.2, none, none⟩
  match opts.login, opts.passcode with
  | some l, some p => { base with login := some l, passcode := some p }
  | _, _ => base

/-- Externally determined outcomes of one connect attempt: the result of
`Uri::try_from(url)` (none = parse failure), of the WebSocket handshake
inside `stomp_connect`, and of `stomp_client.send(connect_msg)`. -/
structure ConnectEnv where
  parseUriResult : Option Uri
  wsHandshakeOk : Bool
  connectSendOk : Bool
deriving DecidableEq

/-- The externally visible actions of `build_and_connect`, in order.
`spawnSession` marks `WStompClient::from_framed` (the client constructor of
src/client.rs), which spawns `stomp_handler_task` on the framed transport;
`sendConnect` marks `stomp_client.send(connect_msg)`, which enqueues the
CONNECT frame on the running session's outbound channel. -/
inductive ConnectStep where
  | resolveClient
  | parseUri
  | wsHandshake
  | spawnSession
  | sendConnect
deriving DecidableEq

/-- The `build_and_connect` flow of src/connect.rs lines 78-133: resolve the
transport client (cannot fail), parse the URL, perform the WebSocket
handshake (on success `stomp_connect` builds the client, spawning the
session task), assemble the CONNECT message and send it through the client.
Returns the connect-call result (on success, the CONNECT message that was
sent) together with the trace of performed actions. -/
def build_and_connect (env : ConnectEnv) (opts : WStompConfigOpts) :
    Except WStompConnectError ConnectMsg × List ConnectStep :=
  match env.parseUriResult with
  | none => (.error .wsClientError, [.resolveClient, .parseUri])
  | some uri =>
    if env.wsHandshakeOk then
      let msg := buildConnectMsg uri opts
      if env.connectSendOk then
        (.ok msg, [.resolveClient, .parseUri, .wsHandshake, .spawnSession, .sendConnect])
      else
        (.error .connectMessageFailed,
          [.resolveClient, .parseUri, .wsHandshake, .spawnSession, .sendConnect])
    else
      (.error .wsClientError, [.resolveClient, .parseUri, .wsHandshake])

/-- The awaited actions of the reconnection supervisor loop.
`awaitSessionEnd` is in the vocabulary so that its absence from the trace is
expressible: the loop body of `build_and_connect_with_reconnection_cb`
contains no await on the spawned session's termination. -/
inductive SupervisorAction where
  | attempt (n : Nat)
  | callback (n : Nat)
  | sleepDelay (n : Nat) (secs : Nat)
  | awaitSessionEnd (n : Nat)
deriving DecidableEq

/-- Trace of the first `k` iterations of the supervisor loop of
`build_and_connect_with_reconnection_cb` (src/connect.rs lines 146-154):
each iteration awaits `inner_connect`, then awaits the callback on the
attempt's outcome, then sleeps 3 seconds. -/
def supervisorTrace : Nat → List SupervisorAction
  | 0 => []
  | k + 1 => supervisorTrace k ++ [.attempt k, .callback k, .sleepDelay k 3]

/-- Start time of attempt `n`, where `aDur n` is the duration of the n-th
`inner_connect` await and `cDur n` the duration of the n-th callback await:
the supervisor awaits those two and then sleeps exactly 3 time-units. -/
def attemptStart (aDur cDur : Nat → Nat) : Nat → Nat
  | 0 => 0
  | n + 1 => attemptStart aDur cDur n + aDur n + cDur n + 3

/-- End time of the n-th callback invocation. -/
def callbackEnd (aDur cDur : Nat → Nat) (n : Nat) : Nat :=
  attemptStart aDur cDur n + aDur n + cDur n

/-- A sample environment whose codec always reports an incomplete frame. -/
def envIncomplete : Env :=
  ⟨fun _ => .incomplete, fun f => .ok [f.val], fun _ => .ok, true⟩

/-- A sample environment whose codec decodes and encodes and whose sink
accepts every write. -/
def envOk : Env :=
  ⟨fun _ => .decoded ⟨0⟩, fun f => .ok [f.val], fun _ => .ok, true⟩

/-- A sample environment whose codec reports a decode error. -/
def envDecodeErr : Env :=
  ⟨fun _ => .decodeError ⟨7⟩, fun f => .ok [f.val], fun _ => .ok, true⟩

/-- A sample environment whose codec fails to encode. -/
def envEncodeErr : Env :=
  ⟨fun _ => .incomplete, fun _ => .encodeError ⟨5⟩, fun _ => .ok, true⟩

/-- A sample environment whose transport sink rejects every write. -/
def envSinkErr : Env :=
  ⟨fun _ => .decoded ⟨0⟩, fun f => .ok [f.val], fun _ => .err ⟨9⟩, true⟩

/-- A terminated loop produces no further events and no further transport
writes, whatever select outcomes follow. -/
theorem stompHandlerRun_terminated :
    ∀ (steps : List (Env × LoopInput)) (s : SessionState), s.running = false →
      stompHandlerRun s steps = (s, [], []) := by
  intro steps
  induction steps with
  | nil => intro s h; rfl
  | cons p rest ih =>
    intro s h
    simp [stompHandlerRun, stompHandlerStep, h, ih s h]

/-- C1: the claim says a transport-level read error makes the loop emit
`Event::Error(WsReceive)` and terminate. The code does not: the select
pattern `Some(Ok(ws_frame))` fails to match `Some(Err(e))`, the branch is
disabled and the error is consumed silently — no event is enqueued and the
loop keeps running. -/
theorem c1_read_error_silently_discarded (env : Env) (s : SessionState)
    (e : WsProtocolError) (hrun : s.running = true) :
    stompHandlerStep env s (.wsReadError e) = ⟨s, [], [], none⟩ := by
  simp [stompHandlerStep, hrun]

/-- Witness for C1 at a concrete state and error. -/
theorem c1_read_error_silently_discarded_witness :
    initialState.running = true ∧
    stompHandlerStep envOk initialState (.wsReadError ⟨3⟩) =
      ⟨initialState, [], [], none⟩ :=
  ⟨rfl, c1_read_error_silently_discarded envOk initialState ⟨3⟩ rfl⟩

/-- C7: a received Ping whose Pong reply the sink accepts yields exactly one
Pong carrying the identical payload, leaves the session state (in
particular the read-accumulation buffer) unchanged, enqueues no event and
attempts no STOMP decode. -/
theorem c7_ping_yields_single_identical_pong (env : Env) (s : SessionState)
    (b : Bytes) (hrun : s.running = true)
    (hsend : env.sinkSend (.pong b) = .ok) :
    stompHandlerStep env s (.wsFrame (.ping b)) = ⟨s, [], [.pong b], none⟩ := by
  obtain ⟨rb, eb, run⟩ := s
  simp only at hrun
  subst hrun
  simp [stompHandlerStep, applyWsFrame, hsend]

/-- Witness for C7 at a concrete payload. -/
theorem c7_ping_yields_single_identical_pong_witness :
    initialState.running = true ∧
    envOk.sinkSend (.pong [1, 2]) = .ok ∧
    stompHandlerStep envOk initialState (.wsFrame (.ping [1, 2])) =
      ⟨initialState, [], [.pong [1, 2]], none⟩ :=
  ⟨rfl, rfl, c7_ping_yields_single_identical_pong envOk initialState [1, 2] rfl rfl⟩

/-- C8: a peer Close frame with reason R yields exactly one `Closed(R)` event,
no transport write and no decode, and the loop terminates: whatever select
outcomes follow, no further events are enqueued and no further writes are
performed. -/
theorem c8_close_propagation (env : Env) (s : SessionState)
    (r : Option CloseReason) (rest : List (Env × LoopInput))
    (hrun : s.running = true) (hchan : env.chanOpen = true) :
    (stompHandlerStep env s (.wsFrame (.close r))).events = [.websocketClosed r] ∧
    (stompHandlerStep env s (.wsFrame (.close r))).sends = [] ∧
    (stompHandlerStep env s (.wsFrame (.close r))).decodedBuf = none ∧
    (stompHandlerStep env s (.wsFrame (.close r))).state.running = false ∧
    stompHandlerRun (stompHandlerStep env s (.wsFrame (.close r))).state rest =
      ((stompHandlerStep env s (.wsFrame (.close r))).state, [], []) := by
  refine ⟨?_, ?_, ?_, ?_, ?_⟩
  · simp [stompHandlerStep, applyWsFrame, deliver, hrun, hchan]
  · simp [stompHandlerStep, applyWsFrame, hrun]
  · simp [stompHandlerStep, applyWsFrame, hrun]
  · simp [stompHandlerStep, applyWsFrame, hrun]
  · exact stompHandlerRun_terminated rest _ (by simp [stompHandlerStep, applyWsFrame, hrun])

/-- Witness for C8 at a concrete close reason and a nonempty continuation. -/
theorem c8_close_propagation_witness :
    initialState.running = true ∧ envOk.chanOpen = true ∧
    ((stompHandlerStep envOk initialState
        (.wsFrame (.close (some ⟨4⟩)))).events = [.websocketClosed (some ⟨4⟩)] ∧
      (stompHandlerStep envOk initialState (.wsFrame (.close (some ⟨4⟩)))).sends = [] ∧
      (stompHandlerStep envOk initialState (.wsFrame (.close (some ⟨4⟩)))).decodedBuf = none ∧
      (stompHandlerStep envOk initialState
        (.wsFrame (.close (some ⟨4⟩)))).state.running = false ∧
      stompHandlerRun (stompHandlerStep envOk initialState
          (.wsFrame (.close (some ⟨4⟩)))).state [(envOk, .tick)] =
        ((stompHandlerStep envOk initialState (.wsFrame (.close (some ⟨4⟩)))).state, [], [])) :=
  ⟨rfl, rfl,
    c8_close_propagation envOk initialState (some ⟨4⟩) [(envOk, .tick)] rfl rfl⟩

/-- C10: an outbound application frame that encodes successfully but whose
WebSocket send fails makes the loop enqueue the error classified
`WsReceive` (not `WsSend`) and terminate: no further events or writes
follow. -/
theorem c10_outbound_send_failure_classified_wsreceive (env : Env)
    (s : SessionState) (f : StompToServer) (bytes : Bytes) (e : WsProtocolError)
    (rest : List (Env × LoopInput))
    (hrun : s.running = true) (hchan : env.chanOpen = true)
    (henc : env.encode f = .ok bytes)
    (hsend : env.sinkSend (.binary (s.encode_buf ++ bytes)) = .err e) :
    (stompHandlerStep env s (.appFrame f)).events = [.error (.wsReceive e)] ∧
    (stompHandlerStep env s (.appFrame f)).sends = [] ∧
    (stompHandlerStep env s (.appFrame f)).state.running = false ∧
    stompHandlerRun (stompHandlerStep env s (.appFrame f)).state rest =
      ((stompHandlerStep env s (.appFrame f)).state, [], []) := by
  refine ⟨?_, ?_, ?_, ?_⟩
  · simp [stompHandlerStep, deliver, hrun, hchan, henc, hsend]
  · simp [stompHandlerStep, hrun, henc, hsend]
  · simp [stompHandlerStep, hrun, henc, hsend]
  · exact stompHandlerRun_terminated rest _
      (by simp [stompHandlerStep, hrun, henc, hsend])

/-- Witness for C10 at a concrete frame with a rejecting sink. -/
theorem c10_outbound_send_failure_classified_wsreceive_witness :
    initialState.running = true ∧ envSinkErr.chanOpen = true ∧
    envSinkErr.encode ⟨6⟩ = .ok [6] ∧
    envSinkErr.sinkSend (.binary (initialState.encode_buf ++ [6])) = .err ⟨9⟩ ∧
    ((stompHandlerStep envSinkErr initialState (.appFrame ⟨6⟩)).events =
        [.error (.wsReceive ⟨9⟩)] ∧
      (stompHandlerStep envSinkErr initialState (.appFrame ⟨6⟩)).sends = [] ∧
      (stompHandlerStep envSinkErr initialState (.appFrame ⟨6⟩)).state.running = false ∧
      stompHandlerRun (stompHandlerStep envSinkErr initialState (.appFrame ⟨6⟩)).state
          [(envOk, .tick)] =
        ((stompHandlerStep envSinkErr initialState (.appFrame ⟨6⟩)).state, [], [])) :=
  ⟨rfl, rfl, rfl, rfl,
    c10_outbound_send_failure_classified_wsreceive envSinkErr initialState ⟨6⟩ [6] ⟨9⟩
      [(envOk, .tick)] rfl rfl rfl rfl⟩

/-- C4: when a finished WebSocket message leaves the loop with a buffer that
the codec reports as incomplete (`Ok(None)`) or as a decode error, the loop
enqueues exactly the single corresponding `Error` event and terminates: no
further events or writes follow, whatever select outcomes come next. -/
theorem c4_decode_failure_fatal (env : Env) (s : SessionState) (f : WsFrame)
    (buf : Bytes) (sends : List WsMessage) (rest : List (Env × LoopInput))
    (hrun : s.running = true) (hchan : env.chanOpen = true)
    (hframe : applyWsFrame env s.read_buf f = .proceed buf true sends) :
    (env.decode buf = .incomplete →
      (stompHandlerStep env s (.wsFrame f)).events = [.error .incompleteStompFrame] ∧
      (stompHandlerStep env s (.wsFrame f)).state.running = false ∧
      stompHandlerRun (stompHandlerStep env s (.wsFrame f)).state rest =
        ((stompHandlerStep env s (.wsFrame f)).state, [], [])) ∧
    (∀ e, env.decode buf = .decodeError e →
      (stompHandlerStep env s (.wsFrame f)).events = [.error (.stompDecoding e)] ∧
      (stompHandlerStep env s (.wsFrame f)).state.running = false ∧
      stompHandlerRun (stompHandlerStep env s (.wsFrame f)).state rest =
        ((stompHandlerStep env s (.wsFrame f)).state, [], [])) := by
  constructor
  · intro hdec
    refine ⟨?_, ?_, ?_⟩
    · simp [stompHandlerStep, hrun, hframe, hdec, deliver, hchan]
    · simp [stompHandlerStep, hrun, hframe, hdec]
    · exact stompHandlerRun_terminated rest _
        (by simp [stompHandlerStep, hrun, hframe, hdec])
  · intro e hdec
    refine ⟨?_, ?_, ?_⟩
    · simp [stompHandlerStep, hrun, hframe, hdec, deliver, hchan]
    · simp [stompHandlerStep, hrun, hframe, hdec]
    · exact stompHandlerRun_terminated rest _
        (by simp [stompHandlerStep, hrun, hframe, hdec])

/-- Witness for C4 at a concrete one-byte binary frame whose buffer the codec
reports incomplete. -/
theorem c4_decode_failure_fatal_witness :
    initialState.running = true ∧ envIncomplete.chanOpen = true ∧
    applyWsFrame envIncomplete initialState.read_buf (.binary [1]) =
      .proceed [1] true [] ∧
    envIncomplete.decode [1] = .incomplete ∧
    ((stompHandlerStep envIncomplete initialState (.wsFrame (.binary [1]))).events =
        [.error .incompleteStompFrame] ∧
      (stompHandlerStep envIncomplete initialState
        (.wsFrame (.binary [1]))).state.running = false ∧
      stompHandlerRun
          (stompHandlerStep envIncomplete initialState (.wsFrame (.binary [1]))).state
          [(envOk, .tick)] =
        ((stompHandlerStep envIncomplete initialState
          (.wsFrame (.binary [1]))).state, [], [])) :=
  ⟨rfl, rfl, rfl, rfl,
    (c4_decode_failure_fatal envIncomplete initialState (.binary [1]) [1] []
      [(envOk, .tick)] rfl rfl rfl).1 rfl⟩

/-- C5: a fragment sequence First(a), Continue(b), Last(c) hands the codec the
buffer a ++ b ++ c — from any prior buffer content, since First clears the
buffer — both for text and binary first fragments; a standalone Binary or
Text frame with payload x, arriving with an empty buffer, hands the codec
exactly x. -/
theorem c5_reassembly (e1 e2 e3 e4 : Env) (s : SessionState) (a b c x : Bytes)
    (hrun : s.running = true) :
    (stompHandlerStep e3
      (stompHandlerStep e2
        (stompHandlerStep e1 s (.wsFrame (.continuation (.firstBinary a)))).state
        (.wsFrame (.continuation (.cont b)))).state
      (.wsFrame (.continuation (.last c)))).decodedBuf = some (a ++ b ++ c) ∧
    (stompHandlerStep e3
      (stompHandlerStep e2
        (stompHandlerStep e1 s (.wsFrame (.continuation (.firstText a)))).state
        (.wsFrame (.continuation (.cont b)))).state
      (.wsFrame (.continuation (.last c)))).decodedBuf = some (a ++ b ++ c) ∧
    (s.read_buf = [] →
      (stompHandlerStep e4 s (.wsFrame (.binary x))).decodedBuf = some x ∧
      (stompHandlerStep e4 s (.wsFrame (.text x))).decodedBuf = some x) := by
  obtain ⟨rb, eb, run⟩ := s
  simp only at hrun
  subst hrun
  refine ⟨?_, ?_, ?_⟩
  · cases hdec : e3.decode (a ++ (b ++ c)) <;> cases hop : e3.chanOpen <;>
      simp [stompHandlerStep, applyWsFrame, hdec, hop]
  · cases hdec : e3.decode (a ++ (b ++ c)) <;> cases hop : e3.chanOpen <;>
      simp [stompHandlerStep, applyWsFrame, hdec, hop]
  · intro hempty
    simp only at hempty
    subst hempty
    constructor
    · cases hdec : e4.decode x <;> cases hop : e4.chanOpen <;>
        simp [stompHandlerStep, applyWsFrame, hdec, hop]
    · cases hdec : e4.decode x <;> cases hop : e4.chanOpen <;>
        simp [stompHandlerStep, applyWsFrame, hdec, hop]

/-- Witness for C5 at concrete fragments and a concrete standalone frame. -/
theorem c5_reassembly_witness :
    initialState.running = true ∧
    ((stompHandlerStep envOk
      (stompHandlerStep envOk
        (stompHandlerStep envOk initialState
          (.wsFrame (.continuation (.firstBinary [1])))).state
        (.wsFrame (.continuation (.cont [2])))).state
      (.wsFrame (.continuation (.last [3])))).decodedBuf = some ([1] ++ [2] ++ [3]) ∧
    (stompHandlerStep envOk
      (stompHandlerStep envOk
        (stompHandlerStep envOk initialState
          (.wsFrame (.continuation (.firstText [1])))).state
        (.wsFrame (.continuation (.cont [2])))).state
      (.wsFrame (.continuation (.last [3])))).decodedBuf = some ([1] ++ [2] ++ [3]) ∧
    (initialState.read_buf = [] →
      (stompHandlerStep envOk initialState (.wsFrame (.binary [4]))).decodedBuf =
        some [4] ∧
      (stompHandlerStep envOk initialState (.wsFrame (.text [4]))).decodedBuf =
        some [4])) :=
  ⟨rfl, c5_reassembly envOk envOk envOk envOk initialState [1] [2] [3] [4] rfl⟩

/-- C6: a STOMP encode failure on an outbound frame enqueues exactly one
`Error(StompEncoding)` event, drops the frame (nothing is written to the
transport), and leaves the session state unchanged and running; a subsequent
outbound frame that encodes successfully is still sent to the transport. -/
theorem c6_encode_error_nonfatal (env env2 : Env) (s : SessionState)
    (f f2 : StompToServer) (e : AnyhowError) (bytes : Bytes)
    (hrun : s.running = true) (hchan : env.chanOpen = true)
    (hbuf : s.encode_buf = [])
    (henc : env.encode f = .encodeError e)
    (henc2 : env2.encode f2 = .ok bytes)
    (hsend : env2.sinkSend (.binary bytes) = .ok) :
    (stompHandlerStep env s (.appFrame f)).events = [.error (.stompEncoding e)] ∧
    (stompHandlerStep env s (.appFrame f)).state = s ∧
    (stompHandlerStep env s (.appFrame f)).sends = [] ∧
    (stompHandlerStep env2 (stompHandlerStep env s (.appFrame f)).state
      (.appFrame f2)).sends = [.binary bytes] := by
  have hstep : stompHandlerStep env s (.appFrame f) =
      ⟨s, [.error (.stompEncoding e)], [], none⟩ := by
    simp [stompHandlerStep, hrun, henc, deliver, hchan]
  rw [hstep]
  refine ⟨rfl, rfl, rfl, ?_⟩
  simp [stompHandlerStep, hrun, henc2, hbuf, hsend]

/-- Witness for C6 at a concrete failing-then-succeeding pair of frames. -/
theorem c6_encode_error_nonfatal_witness :
    initialState.running = true ∧ envEncodeErr.chanOpen = true ∧
    initialState.encode_buf = [] ∧
    envEncodeErr.encode ⟨1⟩ = .encodeError ⟨5⟩ ∧
    envOk.encode ⟨2⟩ = .ok [2] ∧
    envOk.sinkSend (.binary [2]) = .ok ∧
    ((stompHandlerStep envEncodeErr initialState (.appFrame ⟨1⟩)).events =
        [.error (.stompEncoding ⟨5⟩)] ∧
      (stompHandlerStep envEncodeErr initialState (.appFrame ⟨1⟩)).state =
        initialState ∧
      (stompHandlerStep envEncodeErr initialState (.appFrame ⟨1⟩)).sends = [] ∧
      (stompHandlerStep envOk
        (stompHandlerStep envEncodeErr initialState (.appFrame ⟨1⟩)).state
        (.appFrame ⟨2⟩)).sends = [.binary [2]]) :=
  ⟨rfl, rfl, rfl, rfl, rfl, rfl,
    c6_encode_error_nonfatal envEncodeErr envOk initialState ⟨1⟩ ⟨2⟩ ⟨5⟩ [2]
      rfl rfl rfl rfl rfl rfl⟩

/-- C2 counterexample: in its first iteration the supervisor loop performs
the attempt, the callback and the 3-unit sleep, and contains no await on the
spawned Session's termination — the claim that it "awaits the resulting
Session's natural termination" fails already at iteration 0. -/
theorem c2_counterexample :
    supervisorTrace 1 = [.attempt 0, .callback 0, .sleepDelay 0 3] ∧
    SupervisorAction.awaitSessionEnd 0 ∉ supervisorTrace 1 := by
  constructor
  · rfl
  · decide

/-- C2 (amended): after each connection attempt the supervisor awaits the
completion of the caller-supplied callback (not the Session's termination),
and a fixed delay of 3 time-units separates the end of one callback
invocation from the start of the next attempt; no iteration of the
supervisor loop awaits a Session's termination. -/
theorem c2_fixed_delay_after_callback (aDur cDur : Nat → Nat) (n k : Nat) :
    attemptStart aDur cDur (n + 1) = callbackEnd aDur cDur n + 3 ∧
    supervisorTrace (k + 1) =
      supervisorTrace k ++ [.attempt k, .callback k, .sleepDelay k 3] ∧
    SupervisorAction.awaitSessionEnd n ∉ supervisorTrace k := by
  refine ⟨rfl, rfl, ?_⟩
  induction k with
  | zero => simp [supervisorTrace]
  | succ m ih => simp [supervisorTrace, ih]

/-- Witness for C2's amended theorem at concrete durations and indices. -/
theorem c2_fixed_delay_after_callback_witness :
    attemptStart (fun _ => 1) (fun _ => 2) 1 =
      callbackEnd (fun _ => 1) (fun _ => 2) 0 + 3 ∧
    supervisorTrace 2 =
      supervisorTrace 1 ++ [.attempt 1, .callback 1, .sleepDelay 1 3] ∧
    SupervisorAction.awaitSessionEnd 0 ∉ supervisorTrace 1 :=
  c2_fixed_delay_after_callback (fun _ => 1) (fun _ => 2) 0 1

/-- C3 counterexample: with a URL that parses, a successful WebSocket
handshake and a failing CONNECT send, the connect call reports a connection
error, yet the trace contains `spawnSession`: the session task was created
(and the multiplexer loop begun) without any successful CONNECT send,
against the claim's "aborts before a Session is created" and "begins its
loop only after a successful CONNECT send". -/
theorem c3_counterexample :
    (build_and_connect ⟨some ⟨some ⟨"h:1", "h"⟩⟩, true, false⟩
        ⟨false, none, none, none, [], false⟩).1 =
      .error .connectMessageFailed ∧
    ConnectStep.spawnSession ∈
      (build_and_connect ⟨some ⟨some ⟨"h:1", "h"⟩⟩, true, false⟩
        ⟨false, none, none, none, [], false⟩).2 := by
  constructor
  · rfl
  · simp [build_and_connect]

/-- C3 (amended): a failure at URL parsing or at the WebSocket handshake
aborts before the session task is spawned and is reported as a connection
error from the connect call; after a successful handshake the session task
is spawned — and the multiplexer loop begun — immediately, before the
CONNECT send, and a CONNECT-send failure is still reported as a connection
error from the connect call (never as a Session event). -/
theorem c3_connect_failure_ordering (env : ConnectEnv) (opts : WStompConfigOpts) :
    (env.parseUriResult = none →
      (build_and_connect env opts).1 = .error .wsClientError ∧
      ConnectStep.spawnSession ∉ (build_and_connect env opts).2) ∧
    (env.wsHandshakeOk = false →
      ConnectStep.spawnSession ∉ (build_and_connect env opts).2 ∧
      ∀ msg, (build_and_connect env opts).1 ≠ .ok msg) ∧
    (env.parseUriResult ≠ none → env.wsHandshakeOk = true →
      (build_and_connect env opts).2 =
        [.resolveClient, .parseUri, .wsHandshake, .spawnSession, .sendConnect]) ∧
    (env.parseUriResult ≠ none → env.wsHandshakeOk = true →
      env.connectSendOk = false →
      (build_and_connect env opts).1 = .error .connectMessageFailed) := by
  rcases env with ⟨pu, hs, cs⟩
  cases pu <;> cases hs <;> cases cs <;> simp [build_and_connect]

/-- Witness for C3's amended theorem at a concrete environment whose CONNECT
send fails. -/
theorem c3_connect_failure_ordering_witness :
    (some (⟨none⟩ : Uri) ≠ none) ∧
    (build_and_connect ⟨some ⟨none⟩, true, false⟩
        ⟨false, none, none, none, [], false⟩).1 =
      .error .connectMessageFailed :=
  ⟨by simp,
    (c3_connect_failure_ordering ⟨some ⟨none⟩, true, false⟩
      ⟨false, none, none, none, [], false⟩).2.2.2 (by simp) rfl rfl⟩

/-- C9: the assembled CONNECT message sets server and virtual-host to the
URL's authority and the TLS server name to its host, appends the extra
headers plus an Authorization header exactly when an auth token is
configured, and carries login and passcode if and only if both are
configured (with only one or neither set, the message carries no
credentials). -/
theorem c9_connect_frame_composition (uri : Uri) (opts : WStompConfigOpts)
    (a : Authority) (hauth : uri.authority = some a) :
    (buildConnectMsg uri opts).server = a.full ∧
    (buildConnectMsg uri opts).virtualhost = a.full ∧
    (buildConnectMsg uri opts).tls_server_name = a.host ∧
    (buildConnectMsg uri opts).headers =
      opts.additional_headers ++
        (match opts.auth_token with
         | some t => [("Authorization", t)]
         | none => []) ∧
    ((∃ l, opts.login = some l) ∧ (∃ p, opts.passcode = some p) →
      (buildConnectMsg uri opts).login = opts.login ∧
      (buildConnectMsg uri opts).passcode = opts.passcode) ∧
    (opts.login = none ∨ opts.passcode = none →
      (buildConnectMsg uri opts).login = none ∧
      (buildConnectMsg uri opts).passcode = none) := by
  rcases opts with ⟨ssl, tok, lg, pc, hdrs, hc⟩
  cases lg <;> cases pc <;> cases tok <;>
    simp [buildConnectMsg, headers_for_token, hauth]

/-- Witness for C9 at a concrete configuration with an auth token and both
credentials. -/
theorem c9_connect_frame_composition_witness :
    (Uri.mk (some ⟨"h:1", "h"⟩)).authority = some ⟨"h:1", "h"⟩ ∧
    (buildConnectMsg ⟨some ⟨"h:1", "h"⟩⟩
        ⟨false, some "tok", some "l", some "p", [("k", "v")], false⟩).server = "h:1" ∧
    (buildConnectMsg ⟨some ⟨"h:1", "h"⟩⟩
        ⟨false, some "tok", some "l", some "p", [("k", "v")], false⟩).headers =
      [("k", "v")] ++ [("Authorization", "tok")] ∧
    (buildConnectMsg ⟨some ⟨"h:1", "h"⟩⟩
        ⟨false, some "tok", some "l", some "p", [("k", "v")], false⟩).login = some "l" := by
  have h := c9_connect_frame_composition ⟨some ⟨"h:1", "h"⟩⟩
    ⟨false, some "tok", some "l", some "p", [("k", "v")], false⟩ ⟨"h:1", "h"⟩ rfl
  exact ⟨rfl, h.1, h.2.2.2.1,
    (h.2.2.2.2.1 ⟨⟨"l", rfl⟩, ⟨"p", rfl⟩⟩).1⟩

end Wstomp
